import Mathlib

/-!
Verification of the VAST fetcher core (src/fetcher.js).

The file shallowly embeds the `Fetcher` class: its filter-chain management
(`addURLTemplateFilter`, `removeLastURLTemplateFilter`, ...), its
configuration step (`setOptions`) and one run of `fetchVAST`.

JavaScript dynamics that the claims depend on are made explicit:
- a `JSValue` type with JS truthiness, so that `a || b` and `Boolean(x)`
  are embedded faithfully;
- JS objects as ordered association lists with unique keys, so that the
  object-literal spread `{ fixed..., ...details }` (later assignment wins,
  existing keys keep their position) is embedded faithfully;
- `fetchVAST` wraps its body in `new Promise(async (resolve, reject) => ...)`.
  The executor is an async function, hence a value thrown inside it never
  escapes synchronously: it rejects the ignored promise of the async
  executor itself (an unhandled rejection) and the promise returned by
  `fetchVAST` settles only through explicit `resolve`/`reject` calls.
  One run is therefore modelled as a pure record of the observable effects:
  emitter calls, `console.error` logs, bitrate-estimator updates, the
  settlement of the returned promise, any value thrown synchronously to the
  caller, and any unhandled rejection.
-/

/-- A JavaScript value, as far as the fetcher observes it: `undefined`,
`null`, booleans, (integral) numbers, strings, and opaque object
references. -/
inductive JSValue where
  | undefined : JSValue
  | null : JSValue
  | bool (b : Bool) : JSValue
  | num (n : Int) : JSValue
  | str (s : String) : JSValue
  | obj (id : Nat) : JSValue
deriving DecidableEq

/-- JS truthiness (the test performed by `if (x)`, `x || y`, `Boolean(x)`). -/
def truthyJS : JSValue → Bool
  | .undefined => false
  | .null => false
  | .bool b => b
  | .num n => n != 0
  | .str s => s != ""
  | .obj _ => true

/-- The JS expression `a || b`: the first operand when truthy, else the
second. -/
def jsOr (a b : JSValue) : JSValue := if truthyJS a then a else b

/-- A JS object, as an ordered association list. All objects built by the
fetcher have pairwise distinct keys, as JS objects do. -/
abbrev JSObject := List (String × JSValue)

/-- Property read `o[k]`: the value at the key, `undefined` when absent. -/
def getKey : JSObject → String → JSValue
  | [], _ => .undefined
  | p :: rest, k => if p.1 = k then p.2 else getKey rest k

/-- Property assignment `o[k] = v` on an object with distinct keys: an
existing key keeps its position and gets the new value, a new key is
appended at the end (JS property creation order). -/
def setKey : JSObject → String → JSValue → JSObject
  | [], k, v => [(k, v)]
  | p :: rest, k, v => if p.1 = k then (k, v) :: rest else p :: setKey rest k v

/-- Object spread `{ ...o, ...d }` restricted to what the fetcher does:
assign every binding of `d`, in order, into `o`. -/
def spreadInto (o : JSObject) (d : JSObject) : JSObject :=
  d.foldl (fun acc p => setKey acc p.1 p.2) o

/-- The value the LAST binding of key `k` in `d` carries, if any (in a JS
spread, later bindings for the same key win). -/
def lastAssoc : JSObject → String → Option JSValue
  | [], _ => none
  | p :: rest, k =>
    match lastAssoc rest k with
    | some v => some v
    | none => if p.1 = k then some p.2 else none

/-- A URL template filter, as registered through `addURLTemplateFilter`: a
JS function from the current url string to the next one, which may also
throw (`Except.error` carries the thrown value). -/
def URLTemplateFilter := String → Except JSValue String

/-- The object built by `setOptions` and passed to the transport:
`{ timeout: options.timeout || DEFAULT_TIMEOUT, withCredentials: Boolean(options.withCredentials) }`. -/
structure FetchingOptions where
  timeout : JSValue
  withCredentials : Bool
deriving DecidableEq

/-- The value resolved by `this.urlHandler.get`: the fetcher reads
`data.error`, `data.statusCode`, `data.xml` and `data.details` (the last
one possibly absent). The model assumes the transport resolves with a
proper (non-nullish) result object or throws. -/
structure TransportResult where
  error : JSValue := .undefined
  statusCode : JSValue := .undefined
  xml : JSValue := .undefined
  details : Option JSObject := none
deriving DecidableEq

/-- A URL handler (transport): `get(url, fetchingOptions)` either resolves
with a `TransportResult` or throws/rejects with a value
(`Except.error`). -/
structure UrlHandler where
  get : String → FetchingOptions → Except JSValue TransportResult

/-- Modelled from the spec: `DEFAULT_TIMEOUT` is imported from
`./urlhandlers/consts`, which is not part of the given fragment; the spec
only calls it the project-wide default timeout constant. Its concrete
value is irrelevant to every claim below. -/
def DEFAULT_TIMEOUT : Int := 120000

/-- Modelled from the spec: the default XHR transport binding `urlHandler`
imported from `./urlhandlers/xhr_url_handler` is an external collaborator;
only its identity matters to the fetcher logic, so its behaviour is left
inert. It is namespaced by its module here because the `Fetcher` structure
has a field of the same name, as the source class has. -/
def xhr_url_handler.urlHandler : UrlHandler :=
  ⟨fun _ _ => Except.error (JSValue.str "external XHR transport")⟩

/-- The `Fetcher` instance state: the filter array set up by the
constructor, and the two fields assigned by `setOptions` (absent, i.e.
`undefined`, until `setOptions` runs). -/
structure Fetcher where
  URLTemplateFilters : List URLTemplateFilter := []
  urlHandler : Option UrlHandler := none
  fetchingOptions : Option FetchingOptions := none

/-- `new Fetcher()`: `this.URLTemplateFilters = []`. -/
def Fetcher.new : Fetcher := {}

/-- The options bag accepted by `setOptions`. Handler-valued fields are
modelled as `Option UrlHandler`: a supplied handler is an object, hence
truthy; an absent field is `undefined`, hence falsy. -/
structure FetcherOptions where
  urlHandler : Option UrlHandler := none
  urlhandler : Option UrlHandler := none
  timeout : JSValue := .undefined
  withCredentials : JSValue := .undefined

/-- `setOptions(options = {})`:
`this.urlHandler = options.urlHandler || options.urlhandler || urlHandler;`
`this.fetchingOptions = { timeout: options.timeout || DEFAULT_TIMEOUT, withCredentials: Boolean(options.withCredentials) }`. -/
def Fetcher.setOptions (f : Fetcher) (options : FetcherOptions) : Fetcher :=
  { f with
    urlHandler := some
      ((options.urlHandler.or options.urlhandler).getD xhr_url_handler.urlHandler),
    fetchingOptions := some
      { timeout := jsOr options.timeout (.num DEFAULT_TIMEOUT),
        withCredentials := truthyJS options.withCredentials } }

/-- An argument passed to `addURLTemplateFilter`: either a JS function or
some non-function value (which the `typeof filter === 'function'` guard
rejects). -/
inductive FilterArg where
  | fn (g : URLTemplateFilter) : FilterArg
  | notFunction (v : JSValue) : FilterArg

/-- `addURLTemplateFilter(filter)`: pushes `filter` only when it is a
function. -/
def Fetcher.addURLTemplateFilter (f : Fetcher) (filter : FilterArg) : Fetcher :=
  match filter with
  | .fn g => { f with URLTemplateFilters := f.URLTemplateFilters ++ [g] }
  | .notFunction _ => f

/-- `removeLastURLTemplateFilter()`: `this.URLTemplateFilters.pop()`. -/
def Fetcher.removeLastURLTemplateFilter (f : Fetcher) : Fetcher :=
  { f with URLTemplateFilters := f.URLTemplateFilters.dropLast }

/-- `countURLTemplateFilters()`: `this.URLTemplateFilters.length`. -/
def Fetcher.countURLTemplateFilters (f : Fetcher) : Nat :=
  f.URLTemplateFilters.length

/-- `clearURLTemplateFilters()`: `this.URLTemplateFilters = []`. -/
def Fetcher.clearURLTemplateFilters (f : Fetcher) : Fetcher :=
  { f with URLTemplateFilters := [] }

/-- The `forEach` loop of `fetchVAST`: reassign the local `url` through
each filter in array order; a throwing filter aborts the loop with the
thrown value. -/
def applyFilterChain (filters : List URLTemplateFilter) (url : String) :
    Except JSValue String :=
  filters.foldlM (fun u g => g u) url

/-- The filter-chain application step as the fetcher runs it: the loop
only reads the array and reassigns the local `url`, so the fetcher state
comes back unchanged alongside the outcome. -/
def Fetcher.applyChain (f : Fetcher) (url : String) :
    Fetcher × Except JSValue String :=
  (f, applyFilterChain f.URLTemplateFilters url)

/-- The destructured parameter object of `fetchVAST`, after the
destructuring defaults (`wrapperDepth = 0`, `previousUrl = null`,
`wrapperAd = null`) have been applied; `emitter` is the event sink, which
may throw. -/
structure FetchParams where
  url : String
  maxWrapperDepth : JSValue := .undefined
  emitter : String → JSObject → Except JSValue Unit
  wrapperDepth : JSValue := .num 0
  previousUrl : JSValue := .null
  wrapperAd : JSValue := .null

/-- How the promise returned by `fetchVAST` ends up: settled through the
`resolve` or `reject` call of the executor, or never settled at all. -/
inductive Settlement where
  | resolved (v : JSValue) : Settlement
  | rejected (v : JSValue) : Settlement
  | unsettled : Settlement
deriving DecidableEq

/-- The observable effects of one `fetchVAST` call: the emitter calls made
(name and payload, in order), the `console.error` logs, the
`updateEstimatedBitrate` calls (byteLength argument and duration), the
settlement of the returned promise, any value thrown synchronously to the
caller of `fetchVAST`, and any unhandled rejection left behind by the
async executor. -/
structure FetchRun where
  events : List (String × JSObject) := []
  logs : List JSValue := []
  bitrateUpdates : List (JSValue × Nat) := []
  settlement : Settlement := .unsettled
  syncThrow : Option JSValue := none
  unhandledRejection : Option JSValue := none
deriving DecidableEq

/-- Stand-in for the TypeError raised when a field of the not-yet-assigned
`this.fetchingOptions` or `this.urlHandler` is accessed before
`setOptions` ran. -/
def typeErrorJS : JSValue := .str "TypeError"

/-- The object literal passed with the VAST-resolving event. -/
def resolvingPayload (url : String) (p : FetchParams)
    (fopts : FetchingOptions) : JSObject :=
  [("url", .str url), ("previousUrl", p.previousUrl),
   ("wrapperDepth", p.wrapperDepth), ("maxWrapperDepth", p.maxWrapperDepth),
   ("timeout", fopts.timeout), ("wrapperAd", p.wrapperAd)]

/-- The object literal passed with the VAST-resolved event: the six fixed
fields first, then the spread of `data.details` (assignments of the
spread come last, so they overwrite a colliding fixed field). -/
def resolvedPayload (url : String) (previousUrl wrapperDepth : JSValue)
    (data : TransportResult) (requestDuration : Nat) : JSObject :=
  spreadInto
    [("url", .str url), ("previousUrl", previousUrl),
     ("wrapperDepth", wrapperDepth), ("error", jsOr data.error .null),
     ("duration", .num (requestDuration : Int)),
     ("statusCode", jsOr data.statusCode .null)]
    (data.details.getD [])

/-- The argument `data?.details?.byteLength` of the bitrate update. -/
def detailsByteLength (data : TransportResult) : JSValue :=
  match data.details with
  | none => .undefined
  | some d => getKey d "byteLength"

/-- One run of `fetchVAST`, line by line. `elapsed` is the value of
`Date.now() - timeBeforeGet` when the awaited `get` settles; it is a whole
number of milliseconds, so `Math.round` leaves it unchanged and
`requestDuration = elapsed`.

The body runs inside `new Promise(async (resolve, reject) => ...)`; the
executor being an async function, a thrown value never reaches the caller
of `fetchVAST` (`syncThrow` is never populated). The filter loop runs
before the `try`, so a filter throw skips every event and lands in the
ignored promise of the async executor (`unhandledRejection`); every throw
inside the `try` (emitter calls, the transport call, the reads of the
unassigned `this` fields) is caught by the `catch`, logged with
`console.error`, and leaves the returned promise unsettled. -/
def Fetcher.fetchVAST (f : Fetcher) (p : FetchParams) (elapsed : Nat) :
    FetchRun :=
  match applyFilterChain f.URLTemplateFilters p.url with
  | .error e =>
      { settlement := .unsettled, unhandledRejection := some e }
  | .ok url =>
    match f.fetchingOptions with
    | none =>
        { logs := [typeErrorJS], settlement := .unsettled }
    | some fopts =>
      let ev1 : List (String × JSObject) :=
        [("VAST-resolving", resolvingPayload url p fopts)]
      match p.emitter "VAST-resolving" (resolvingPayload url p fopts) with
      | .error e =>
          { events := ev1, logs := [e], settlement := .unsettled }
      | .ok _ =>
        match f.urlHandler with
        | none =>
            { events := ev1, logs := [typeErrorJS], settlement := .unsettled }
        | some handler =>
          match handler.get url fopts with
          | .error e =>
              { events := ev1, logs := [e], settlement := .unsettled }
          | .ok data =>
            let pl2 := resolvedPayload url p.previousUrl p.wrapperDepth data elapsed
            let ev2 := ev1 ++ [("VAST-resolved", pl2)]
            match p.emitter "VAST-resolved" pl2 with
            | .error e =>
                { events := ev2, logs := [e], settlement := .unsettled }
            | .ok _ =>
              let upd := [(detailsByteLength data, elapsed)]
              if truthyJS data.error then
                { events := ev2, bitrateUpdates := upd,
                  settlement := .rejected data.error }
              else
                { events := ev2, bitrateUpdates := upd,
                  settlement := .resolved data.xml }

/-- A filter built from a plain (non-throwing) url transform, the shape
the source documents for URL template filters. -/
def pureFilter (g : String → String) : URLTemplateFilter :=
  fun u => .ok (g u)

/-- An event sink that never throws. -/
def okEmitter : String → JSObject → Except JSValue Unit := fun _ _ => .ok ()

/-- An event sink that throws only on the VAST-resolved call. -/
def throwOnResolvedEmitter : String → JSObject → Except JSValue Unit :=
  fun name _ => if name = "VAST-resolved" then .error (.str "sinkBoom") else .ok ()

/-- A concrete fetching-options value used by concrete runs below. -/
def foptsEx : FetchingOptions := { timeout := .num 5000, withCredentials := false }

/-- A transport result reporting an error, as in the spec scenario
`{ error: "boom", statusCode: 500 }`. -/
def dataBoom : TransportResult :=
  { error := .str "boom", statusCode := .num 500, xml := .str "<VAST/>",
    details := some [("byteLength", .num 42)] }

/-- A successful transport result whose `details` object reuses the fixed
payload key `url`. -/
def dataOverride : TransportResult :=
  { error := .null, statusCode := .num 200, xml := .str "<VAST/>",
    details := some [("byteLength", .num 42), ("url", .str "OVERRIDE")] }

/-- A transport resolving with `dataBoom`. -/
def handlerBoom : UrlHandler := ⟨fun _ _ => .ok dataBoom⟩

/-- A transport resolving with `dataOverride`. -/
def handlerOverride : UrlHandler := ⟨fun _ _ => .ok dataOverride⟩

/-- A transport whose `get` throws. -/
def handlerThrow : UrlHandler := ⟨fun _ _ => .error (.str "netBoom")⟩

/-- A URL template filter that throws on every input. -/
def throwingFilter : URLTemplateFilter := fun _ => .error (.str "filterBoom")

/-- A configured fetcher with no filters and the error-reporting transport. -/
def fetcherBoom : Fetcher :=
  { URLTemplateFilters := [], urlHandler := some handlerBoom,
    fetchingOptions := some foptsEx }

/-- A configured fetcher with no filters and the key-colliding transport. -/
def fetcherOverride : Fetcher :=
  { URLTemplateFilters := [], urlHandler := some handlerOverride,
    fetchingOptions := some foptsEx }

/-- A configured fetcher with no filters and the throwing transport. -/
def fetcherNetThrow : Fetcher :=
  { URLTemplateFilters := [], urlHandler := some handlerThrow,
    fetchingOptions := some foptsEx }

/-- A configured fetcher whose only filter throws; its transport and the
event sinks used with it never throw. -/
def fetcherFilterThrow : Fetcher :=
  { URLTemplateFilters := [throwingFilter], urlHandler := some handlerBoom,
    fetchingOptions := some foptsEx }

/-- Concrete request parameters with a never-throwing event sink. -/
def paramsOk : FetchParams := { url := "REAL", emitter := okEmitter }

/-- Concrete request parameters whose event sink throws on VAST-resolved. -/
def paramsSinkThrow : FetchParams :=
  { url := "REAL", emitter := throwOnResolvedEmitter }

/-- A custom transport supplied by a caller through the options bag. -/
def customHandler : UrlHandler := ⟨fun _ _ => .ok {}⟩

theorem getKey_setKey_self (o : JSObject) (k : String) (v : JSValue) :
    getKey (setKey o k v) k = v := by
  induction o with
  | nil => simp [setKey, getKey]
  | cons p rest ih =>
    by_cases h : p.1 = k
    · simp [setKey, getKey, h]
    · simp [setKey, getKey, h, ih]

theorem getKey_setKey_ne (o : JSObject) (k k' : String) (v : JSValue)
    (h : k' ≠ k) : getKey (setKey o k v) k' = getKey o k' := by
  induction o with
  | nil => simp [setKey, getKey, Ne.symm h]
  | cons p rest ih =>
    by_cases hpk : p.1 = k
    · simp [setKey, getKey, hpk, Ne.symm h]
    · simp [setKey, getKey, hpk, ih]

/-- Spread semantics: after assigning all bindings of `d` into `o`, a key
holds the last value `d` binds for it, and falls back to the value in `o`
when `d` does not bind it at all. -/
theorem getKey_spreadInto (o d : JSObject) (k : String) :
    getKey (spreadInto o d) k = (lastAssoc d k).getD (getKey o k) := by
  induction d generalizing o with
  | nil => simp [spreadInto, lastAssoc]
  | cons p rest ih =>
    show getKey (spreadInto (setKey o p.1 p.2) rest) k = _
    rw [ih]
    cases hrest : lastAssoc rest k with
    | some v => simp [lastAssoc, hrest]
    | none =>
      by_cases hpk : p.1 = k
      · subst hpk
        simp [lastAssoc, hrest, getKey_setKey_self]
      · simp [lastAssoc, hrest, hpk, getKey_setKey_ne o p.1 k p.2 (Ne.symm hpk)]

/-- A chain of pure filters folds the url through the transforms in array
order. -/
theorem applyFilterChain_pure (gs : List (String → String)) (url : String) :
    applyFilterChain (gs.map pureFilter) url =
      .ok (gs.foldl (fun u g => g u) url) := by
  induction gs generalizing url with
  | nil => rfl
  | cons g t ih =>
    show applyFilterChain (pureFilter g :: t.map pureFilter) url = _
    simp only [applyFilterChain, List.foldlM_cons, List.foldl_cons]
    exact ih (g url)

/-- C6: with a falsy (or absent) `timeout` option, `setOptions` stores the
default timeout constant, and it stores the strict boolean coercion of the
`withCredentials` option: `false` for a falsy value, `true` for any truthy
value, boolean or not. -/
theorem setOptions_defaults (f : Fetcher) (o : FetcherOptions)
    (ht : truthyJS o.timeout = false) :
    (f.setOptions o).fetchingOptions =
      some { timeout := .num DEFAULT_TIMEOUT,
             withCredentials := truthyJS o.withCredentials } := by
  simp [Fetcher.setOptions, jsOr, ht]

theorem setOptions_defaults_witness :
    (Fetcher.new.setOptions { withCredentials := JSValue.str "yes" }).fetchingOptions =
      some { timeout := .num DEFAULT_TIMEOUT, withCredentials := true } := by
  have h := setOptions_defaults Fetcher.new { withCredentials := JSValue.str "yes" } rfl
  exact h.trans (by decide)

/-- C9: `setOptions` selects the transport with this priority: the
`urlHandler` option when truthy, else the all-lowercase `urlhandler`
option when truthy, else the module default transport. -/
theorem setOptions_urlHandler_priority (f : Fetcher) (o : FetcherOptions) :
    (∀ h, o.urlHandler = some h → (f.setOptions o).urlHandler = some h) ∧
    (o.urlHandler = none → ∀ h, o.urlhandler = some h →
      (f.setOptions o).urlHandler = some h) ∧
    (o.urlHandler = none → o.urlhandler = none →
      (f.setOptions o).urlHandler = some xhr_url_handler.urlHandler) := by
  refine ⟨fun h hh => ?_, fun hn h hh => ?_, fun hn hn' => ?_⟩ <;>
    simp [Fetcher.setOptions, Option.or, *]

theorem setOptions_urlHandler_priority_witness :
    (Fetcher.new.setOptions { urlhandler := some customHandler }).urlHandler =
      some customHandler :=
  (setOptions_urlHandler_priority Fetcher.new
    { urlhandler := some customHandler }).2.1 rfl customHandler rfl

/-- C10: `setOptions` replaces the transport and the fetching options with
values computed from the options bag alone, and leaves the registered
filter chain untouched. -/
theorem setOptions_preserves_filters (f : Fetcher) (o : FetcherOptions) :
    (f.setOptions o).URLTemplateFilters = f.URLTemplateFilters ∧
    (f.setOptions o).urlHandler =
      some ((o.urlHandler.or o.urlhandler).getD xhr_url_handler.urlHandler) ∧
    (f.setOptions o).fetchingOptions =
      some { timeout := jsOr o.timeout (.num DEFAULT_TIMEOUT),
             withCredentials := truthyJS o.withCredentials } :=
  ⟨rfl, rfl, rfl⟩

/-- C7: applying the filter chain folds the url through the registered
transforms strictly in registration order and leaves the chain itself
unchanged; removing the last filter and re-applying composes exactly the
first N-1 transforms. -/
theorem filter_chain_composition (gs : List (String → String))
    (g : String → String) (url : String) (h0 : Option UrlHandler)
    (fo0 : Option FetchingOptions) :
    (Fetcher.applyChain ⟨(gs ++ [g]).map pureFilter, h0, fo0⟩ url).1 =
      ⟨(gs ++ [g]).map pureFilter, h0, fo0⟩ ∧
    (Fetcher.applyChain ⟨(gs ++ [g]).map pureFilter, h0, fo0⟩ url).2 =
      .ok (g (gs.foldl (fun u f => f u) url)) ∧
    Fetcher.removeLastURLTemplateFilter ⟨(gs ++ [g]).map pureFilter, h0, fo0⟩ =
      ⟨gs.map pureFilter, h0, fo0⟩ ∧
    (Fetcher.applyChain ⟨gs.map pureFilter, h0, fo0⟩ url).2 =
      .ok (gs.foldl (fun u f => f u) url) := by
  refine ⟨rfl, ?_, ?_, ?_⟩
  · show applyFilterChain ((gs ++ [g]).map pureFilter) url = _
    rw [applyFilterChain_pure]
    simp [List.foldl_append]
  · show Fetcher.mk (((gs ++ [g]).map pureFilter).dropLast) h0 fo0 = _
    rw [List.map_append]
    simp [List.dropLast_concat]
  · exact applyFilterChain_pure gs url

/-- C4: when the transport returns a result without throwing and neither
emitter call throws, the promise rejects with exactly `data.error` when
that error is set (truthy, per the `if (data.error)` test), and otherwise
resolves with the document text `data.xml`. -/
theorem fetchVAST_settles_on_result (f : Fetcher) (p : FetchParams)
    (elapsed : Nat) (u : String) (fopts : FetchingOptions)
    (handler : UrlHandler) (data : TransportResult)
    (hchain : applyFilterChain f.URLTemplateFilters p.url = .ok u)
    (hfo : f.fetchingOptions = some fopts)
    (hh : f.urlHandler = some handler)
    (he1 : p.emitter "VAST-resolving" (resolvingPayload u p fopts) = .ok ())
    (hget : handler.get u fopts = .ok data)
    (he2 : p.emitter "VAST-resolved"
      (resolvedPayload u p.previousUrl p.wrapperDepth data elapsed) = .ok ()) :
    (f.fetchVAST p elapsed).settlement =
      if truthyJS data.error then .rejected data.error
      else .resolved data.xml := by
  by_cases hE : truthyJS data.error <;>
    simp [Fetcher.fetchVAST, hchain, hfo, hh, he1, hget, he2, hE]

theorem fetchVAST_settles_on_result_witness :
    (fetcherBoom.fetchVAST paramsOk 7).settlement =
      .rejected (.str "boom") := by
  have h := fetchVAST_settles_on_result fetcherBoom paramsOk 7 "REAL" foptsEx
    handlerBoom dataBoom rfl rfl rfl rfl rfl rfl
  exact h.trans (by decide)

/-- C5 counterexample: the transport `get` of this run returns a result
without throwing (it resolves with `dataBoom`), yet because the event sink
throws on the VAST-resolved call, `updateEstimatedBitrate` is never
invoked: the claim that the estimator is updated on every attempt whose
`get` returned without throwing is false. -/
theorem bitrate_skipped_on_sink_throw_cx :
    handlerBoom.get "REAL" foptsEx = .ok dataBoom ∧
    (fetcherBoom.fetchVAST paramsSinkThrow 7).bitrateUpdates = [] :=
  ⟨rfl, by decide⟩

/-- C5 (amended): on every attempt in which the transport `get` returns a
result without throwing AND the VAST-resolved emitter call also returns
without throwing, the bitrate estimator is updated exactly once, with
`result.details.byteLength` (`undefined` when absent) and the measured
duration — on error outcomes as well as success outcomes. -/
theorem fetchVAST_updates_bitrate (f : Fetcher) (p : FetchParams)
    (elapsed : Nat) (u : String) (fopts : FetchingOptions)
    (handler : UrlHandler) (data : TransportResult)
    (hchain : applyFilterChain f.URLTemplateFilters p.url = .ok u)
    (hfo : f.fetchingOptions = some fopts)
    (hh : f.urlHandler = some handler)
    (he1 : p.emitter "VAST-resolving" (resolvingPayload u p fopts) = .ok ())
    (hget : handler.get u fopts = .ok data)
    (he2 : p.emitter "VAST-resolved"
      (resolvedPayload u p.previousUrl p.wrapperDepth data elapsed) = .ok ()) :
    (f.fetchVAST p elapsed).bitrateUpdates =
      [(detailsByteLength data, elapsed)] := by
  by_cases hE : truthyJS data.error <;>
    simp [Fetcher.fetchVAST, hchain, hfo, hh, he1, hget, he2, hE]

theorem fetchVAST_updates_bitrate_witness :
    (fetcherBoom.fetchVAST paramsOk 7).bitrateUpdates = [(.num 42, 7)] := by
  have h := fetchVAST_updates_bitrate fetcherBoom paramsOk 7 "REAL" foptsEx
    handlerBoom dataBoom rfl rfl rfl rfl rfl rfl
  exact h.trans (by decide)

/-- C3: when the transport `get` call throws, or one of the two emitter
calls throws, the thrown value is caught at the outermost level and only
logged: the log holds exactly that value, the returned promise never
settles, and nothing is thrown to the caller of `fetchVAST`. -/
theorem fetchVAST_swallows_thrown (f : Fetcher) (p : FetchParams)
    (elapsed : Nat) (u : String) (fopts : FetchingOptions)
    (handler : UrlHandler) (e : JSValue)
    (hchain : applyFilterChain f.URLTemplateFilters p.url = .ok u)
    (hfo : f.fetchingOptions = some fopts)
    (hh : f.urlHandler = some handler)
    (hthrow :
      p.emitter "VAST-resolving" (resolvingPayload u p fopts) = .error e ∨
      (p.emitter "VAST-resolving" (resolvingPayload u p fopts) = .ok () ∧
        handler.get u fopts = .error e) ∨
      (∃ data, p.emitter "VAST-resolving" (resolvingPayload u p fopts) = .ok () ∧
        handler.get u fopts = .ok data ∧
        p.emitter "VAST-resolved"
          (resolvedPayload u p.previousUrl p.wrapperDepth data elapsed) =
            .error e)) :
    (f.fetchVAST p elapsed).logs = [e] ∧
    (f.fetchVAST p elapsed).settlement = .unsettled ∧
    (f.fetchVAST p elapsed).syncThrow = none ∧
    (f.fetchVAST p elapsed).unhandledRejection = none := by
  rcases hthrow with h1 | ⟨h1, h2⟩ | ⟨data, h1, h2, h3⟩
  · simp [Fetcher.fetchVAST, hchain, hfo, hh, h1]
  · simp [Fetcher.fetchVAST, hchain, hfo, hh, h1, h2]
  · simp [Fetcher.fetchVAST, hchain, hfo, hh, h1, h2, h3]

theorem fetchVAST_swallows_thrown_witness :
    (fetcherNetThrow.fetchVAST paramsOk 7).logs = [.str "netBoom"] ∧
    (fetcherNetThrow.fetchVAST paramsOk 7).settlement = .unsettled ∧
    (fetcherNetThrow.fetchVAST paramsOk 7).syncThrow = none ∧
    (fetcherNetThrow.fetchVAST paramsOk 7).unhandledRejection = none :=
  fetchVAST_swallows_thrown fetcherNetThrow paramsOk 7 "REAL" foptsEx
    handlerThrow (.str "netBoom") rfl rfl rfl (Or.inr (Or.inl ⟨rfl, rfl⟩))

/-- C8 counterexample: in this run the event sink (`okEmitter`) and the
transport (`handlerBoom`) never throw — by construction they always return
normally — yet because the registered filter throws, the attempt emits no
event at all instead of the claimed resolving/resolved pair. -/
theorem event_pairing_cx :
    okEmitter "VAST-resolving" [] = .ok () ∧
    handlerBoom.get "REAL" foptsEx = .ok dataBoom ∧
    (fetcherFilterThrow.fetchVAST paramsOk 2).events = [] ∧
    (fetcherFilterThrow.fetchVAST paramsOk 2).events.map Prod.fst ≠
      ["VAST-resolving", "VAST-resolved"] :=
  ⟨rfl, rfl, by decide, by decide⟩

/-- C8 (amended): on every attempt in which the URL filters apply without
throwing and the VAST-resolving emitter call returns without throwing:
when the transport returns a result, the attempt emits exactly one
VAST-resolving event followed by exactly one VAST-resolved event; when an
exception escapes the transport call, the pairing is broken — only the
VAST-resolving event is emitted — and no settlement occurs. -/
theorem fetchVAST_event_pairing (f : Fetcher) (p : FetchParams)
    (elapsed : Nat) (u : String) (fopts : FetchingOptions)
    (handler : UrlHandler)
    (hchain : applyFilterChain f.URLTemplateFilters p.url = .ok u)
    (hfo : f.fetchingOptions = some fopts)
    (hh : f.urlHandler = some handler)
    (he1 : p.emitter "VAST-resolving" (resolvingPayload u p fopts) = .ok ()) :
    (∀ data, handler.get u fopts = .ok data →
      (f.fetchVAST p elapsed).events.map Prod.fst =
        ["VAST-resolving", "VAST-resolved"]) ∧
    (∀ e, handler.get u fopts = .error e →
      (f.fetchVAST p elapsed).events.map Prod.fst = ["VAST-resolving"] ∧
      (f.fetchVAST p elapsed).settlement = .unsettled) := by
  constructor
  · intro data hget
    cases h2 : p.emitter "VAST-resolved"
        (resolvedPayload u p.previousUrl p.wrapperDepth data elapsed) with
    | error e => simp [Fetcher.fetchVAST, hchain, hfo, hh, he1, hget, h2]
    | ok u2 =>
      by_cases hE : truthyJS data.error <;>
        simp [Fetcher.fetchVAST, hchain, hfo, hh, he1, hget, h2, hE]
  · intro e hget
    simp [Fetcher.fetchVAST, hchain, hfo, hh, he1, hget]

theorem fetchVAST_event_pairing_witness :
    (fetcherBoom.fetchVAST paramsOk 7).events.map Prod.fst =
      ["VAST-resolving", "VAST-resolved"] :=
  (fetchVAST_event_pairing fetcherBoom paramsOk 7 "REAL" foptsEx handlerBoom
    rfl rfl rfl rfl).1 dataBoom rfl

/-- C2 counterexample: the only registered filter of this run throws, yet
nothing propagates synchronously to the caller of `fetchVAST`: the
executor is an async function, so the throw only rejects its own ignored
promise; the returned promise never settles and no event is emitted. -/
theorem filter_throw_cx :
    (fetcherFilterThrow.fetchVAST paramsOk 2).syncThrow = none ∧
    (fetcherFilterThrow.fetchVAST paramsOk 2).settlement = .unsettled ∧
    (fetcherFilterThrow.fetchVAST paramsOk 2).events = [] ∧
    (fetcherFilterThrow.fetchVAST paramsOk 2).unhandledRejection =
      some (.str "filterBoom") := by
  decide

/-- C2 (amended): a filter throwing during chain application is not caught
by the try/catch of the fetcher and prevents any event from being emitted,
but it does not propagate synchronously to the caller of `fetchVAST`: the
thrown value becomes an unhandled rejection of the inner async executor,
nothing is logged, no estimator update happens, and the returned promise
never settles. -/
theorem fetchVAST_filter_throw (f : Fetcher) (p : FetchParams)
    (elapsed : Nat) (e : JSValue)
    (hchain : applyFilterChain f.URLTemplateFilters p.url = .error e) :
    f.fetchVAST p elapsed =
      { events := [], logs := [], bitrateUpdates := [],
        settlement := .unsettled, syncThrow := none,
        unhandledRejection := some e } := by
  unfold Fetcher.fetchVAST
  rw [hchain]

theorem fetchVAST_filter_throw_witness :
    fetcherFilterThrow.fetchVAST paramsOk 2 =
      { events := [], logs := [], bitrateUpdates := [],
        settlement := .unsettled, syncThrow := none,
        unhandledRejection := some (.str "filterBoom") } :=
  fetchVAST_filter_throw fetcherFilterThrow paramsOk 2 (.str "filterBoom") rfl

/-- C1 counterexample: the transport attaches `details: { byteLength: 42,
url: "OVERRIDE" }` while the post-filter url of the attempt is `"REAL"`;
in the payload passed with the VAST-resolved event the key `url` carries
`"OVERRIDE"`, the value from `result.details`, not the fixed field value
`"REAL"`: the spread `...data?.details` comes last in the object literal,
so on key collision the details win, not the fixed fields. -/
theorem resolved_payload_collision_cx :
    ((fetcherOverride.fetchVAST paramsOk 3).events.getD 1 ("", [])).1 =
      "VAST-resolved" ∧
    getKey ((fetcherOverride.fetchVAST paramsOk 3).events.getD 1 ("", [])).2
      "url" = .str "OVERRIDE" ∧
    JSValue.str "OVERRIDE" ≠ JSValue.str "REAL" := by
  refine ⟨by decide, by decide, by decide⟩

/-- C1 (amended): for every key on which `result.details` collides with
one of the fixed resolved-event fields, the payload passed to the emitter
for the VAST-resolved event carries the value from `result.details` (its
last binding for that key): on key collision the spread fields take
precedence over the fixed fields. -/
theorem resolved_payload_details_precedence (f : Fetcher) (p : FetchParams)
    (elapsed : Nat) (u : String) (fopts : FetchingOptions)
    (handler : UrlHandler) (data : TransportResult) (k : String) (v : JSValue)
    (hchain : applyFilterChain f.URLTemplateFilters p.url = .ok u)
    (hfo : f.fetchingOptions = some fopts)
    (hh : f.urlHandler = some handler)
    (he1 : p.emitter "VAST-resolving" (resolvingPayload u p fopts) = .ok ())
    (hget : handler.get u fopts = .ok data)
    (hk : lastAssoc (data.details.getD []) k = some v) :
    (f.fetchVAST p elapsed).events.getD 1 ("", []) =
      ("VAST-resolved",
        resolvedPayload u p.previousUrl p.wrapperDepth data elapsed) ∧
    getKey (resolvedPayload u p.previousUrl p.wrapperDepth data elapsed) k =
      v := by
  constructor
  · cases h2 : p.emitter "VAST-resolved"
        (resolvedPayload u p.previousUrl p.wrapperDepth data elapsed) with
    | error e => simp [Fetcher.fetchVAST, hchain, hfo, hh, he1, hget, h2]
    | ok u2 =>
      by_cases hE : truthyJS data.error <;>
        simp [Fetcher.fetchVAST, hchain, hfo, hh, he1, hget, h2, hE]
  · rw [resolvedPayload, getKey_spreadInto, hk]
    rfl

theorem resolved_payload_details_precedence_witness :
    (fetcherOverride.fetchVAST paramsOk 3).events.getD 1 ("", []) =
      ("VAST-resolved",
        resolvedPayload "REAL" JSValue.null (JSValue.num 0) dataOverride 3) ∧
    getKey (resolvedPayload "REAL" JSValue.null (JSValue.num 0) dataOverride 3)
      "url" = .str "OVERRIDE" :=
  resolved_payload_details_precedence fetcherOverride paramsOk 3 "REAL"
    foptsEx handlerOverride dataOverride "url" (.str "OVERRIDE")
    rfl rfl rfl rfl rfl rfl
